import Mathlib

/-!
Shallow embedding of `services/surfaceflinger/Scheduler/VSyncReactor.cpp`
(namespace `android::scheduler`).

Timestamps and periods (`nsecs_t`, a signed 64-bit count of nanoseconds that
never approaches overflow in this code) are modelled as `Int`.  Fences are
identified by a `Nat` handle; what a fence's `getCachedSignalTime()` currently
reports is supplied per call by an environment `Nat → SignalTime`, since the
backlog re-queries every stored fence on each `addPresentFence` call and a
fence's cached signal time may change between calls.  Listener identities
(`DispSync::Callback*` pointers used as map keys) are modelled as `Nat`.
The external collaborators are modelled at their interface exactly as the
reactor uses them: the tracker records its current period and the ordered list
of timestamps forwarded to it; the dispatcher's `schedule` succeeds for every
well-formed workload (its failure path is `LOG_ALWAYS_FATAL`, outside the
behaviour the reactor defines).  `LOG_ALWAYS_FATAL_IF` aborts and the
C++-undefined `erase(begin())` on an empty sequence are modelled as `none`
results of `Option`-returning operations.
-/

namespace AndroidScheduler

/-- Result of querying a fence's cached signal time: one of
`Fence::SIGNAL_TIME_PENDING`, `Fence::SIGNAL_TIME_INVALID`, or a concrete
signal timestamp. -/
inductive SignalTime where
  | pending
  | invalid
  | signaled (t : Int)
  deriving DecidableEq, Repr

/-- The external period estimator (`VSyncTracker`) at its interface:
`period` backs `currentPeriod()` / `setPeriod()`, and `samples` records, in
order, every timestamp forwarded via `addVsyncTimestamp()`. -/
structure VSyncTracker where
  period : Int
  samples : List Int
  deriving DecidableEq, Repr

def VSyncTracker.addVsyncTimestamp (tr : VSyncTracker) (t : Int) : VSyncTracker :=
  { tr with samples := tr.samples ++ [t] }

def VSyncTracker.setPeriod (tr : VSyncTracker) (p : Int) : VSyncTracker :=
  { tr with period := p }

def VSyncTracker.currentPeriod (tr : VSyncTracker) : Int :=
  tr.period

/-- State of one `CallbackRepeater` (per-listener adapter).  The scoped
dispatcher registration is external; the fields are the repeater's own
`mStopped`, `mPeriod`, `mOffset`, `mLastCallTime`. -/
structure CallbackRepeater where
  mStopped : Bool
  mPeriod : Int
  mOffset : Int
  mLastCallTime : Int
  deriving DecidableEq, Repr

/-- `CallbackRepeater::start(offset)`: clears `mStopped`, records the offset and
schedules the next firing (scheduling always succeeds; its failure path is
fatal, not a behaviour). -/
def CallbackRepeater.start (r : CallbackRepeater) (offset : Int) : CallbackRepeater :=
  { r with mStopped := false, mOffset := offset }

/-- `CallbackRepeater::setPeriod(period)`: early-returns when unchanged,
otherwise stores the new period. -/
def CallbackRepeater.setPeriod (r : CallbackRepeater) (period : Int) : CallbackRepeater :=
  if period = r.mPeriod then r else { r with mPeriod := period }

/-- `CallbackRepeater::stop()`: `LOG_ALWAYS_FATAL_IF(mStopped, ...)` — stopping
an already-stopped repeater aborts (`none`); otherwise marks it stopped and
cancels the registration. -/
def CallbackRepeater.stop (r : CallbackRepeater) : Option CallbackRepeater :=
  if r.mStopped then none else some { r with mStopped := true }

/-- The `status_t` values this file returns. -/
inductive status_t where
  | NO_ERROR
  | NO_MEMORY
  deriving DecidableEq, Repr

/-- The reactor's lock-protected state (`VSyncReactor`'s fields). `mCallbacks`
is the listener map, keyed by listener identity, modelled as an association
list in insertion order with at most one entry per key. -/
structure VSyncReactor where
  mPendingLimit : Nat
  mUnfiredFences : List Nat
  mIgnorePresentFences : Bool
  mPeriodTransitioningTo : Option Int
  mLastHwVsync : Option Int
  mMoreSamplesNeeded : Bool
  mCallbacks : List (Nat × CallbackRepeater)
  mTracker : VSyncTracker
  deriving DecidableEq, Repr

/-- First lookup in the association list backing `mCallbacks`
(`mCallbacks.find(callback)`). -/
def lookupCallback (cbs : List (Nat × CallbackRepeater)) (id : Nat) :
    Option CallbackRepeater :=
  match cbs with
  | [] => none
  | e :: rest => if e.1 = id then some e.2 else lookupCallback rest id

/-- Replace the entry for `id` (the map's unique entry, here the first match)
with `r`, used to write back through the `mCallbacks` iterator. -/
def updateCallback (cbs : List (Nat × CallbackRepeater)) (id : Nat)
    (r : CallbackRepeater) : List (Nat × CallbackRepeater) :=
  match cbs with
  | [] => []
  | e :: rest => if e.1 = id then (e.1, r) :: rest else e :: updateCallback rest id r

/-- The backlog drain loop of `addPresentFence` (lines 135-145): for each queued
fence in order, PENDING entries are kept, INVALID entries erased, and settled
entries erased with their timestamp forwarded to the tracker.  Returns the
surviving backlog and the updated tracker. -/
def drainFences (env : Nat → SignalTime) :
    List Nat → VSyncTracker → List Nat × VSyncTracker
  | [], tr => ([], tr)
  | f :: rest, tr =>
    match env f with
    | SignalTime.pending =>
        let r := drainFences env rest tr
        (f :: r.1, r.2)
    | SignalTime.invalid => drainFences env rest tr
    | SignalTime.signaled t => drainFences env rest (tr.addVsyncTimestamp t)

/-- `VSyncReactor::addPresentFence(fence)`.  `fence = none` models a null
`shared_ptr`.  Returns `none` exactly when the eviction step would call
`erase(begin())` on an empty backlog (C++ undefined behaviour), otherwise
`some (returnValue, newState)`. -/
def VSyncReactor.addPresentFence (s : VSyncReactor) (env : Nat → SignalTime)
    (fence : Option Nat) : Option (Bool × VSyncReactor) :=
  match fence with
  | none => some (false, s)
  | some f =>
    match env f with
    | SignalTime.invalid => some (true, s)
    | SignalTime.pending =>
        if s.mIgnorePresentFences then
          some (true, s)
        else
          let drained := drainFences env s.mUnfiredFences s.mTracker
          if s.mPendingLimit = drained.1.length then
            match drained.1 with
            | [] => none
            | _ :: rest =>
                some (s.mMoreSamplesNeeded,
                  { s with mUnfiredFences := rest ++ [f], mTracker := drained.2 })
          else
            some (s.mMoreSamplesNeeded,
              { s with mUnfiredFences := drained.1 ++ [f], mTracker := drained.2 })
    | SignalTime.signaled t =>
        if s.mIgnorePresentFences then
          some (true, s)
        else
          let drained := drainFences env s.mUnfiredFences s.mTracker
          some (s.mMoreSamplesNeeded,
            { s with mUnfiredFences := drained.1,
                     mTracker := drained.2.addVsyncTimestamp t })

/-- `VSyncReactor::setIgnorePresentFences(ignoration)`: stores the flag and, when
it is set to true, clears the backlog. -/
def VSyncReactor.setIgnorePresentFences (s : VSyncReactor) (ignoration : Bool) :
    VSyncReactor :=
  if ignoration then
    { s with mIgnorePresentFences := ignoration, mUnfiredFences := [] }
  else
    { s with mIgnorePresentFences := ignoration }

/-- `VSyncReactor::getPeriod()`: delegates to the tracker. -/
def VSyncReactor.getPeriod (s : VSyncReactor) : Int :=
  s.mTracker.currentPeriod

/-- `VSyncReactor::startPeriodTransition(newPeriod)`. -/
def VSyncReactor.startPeriodTransition (s : VSyncReactor) (newPeriod : Int) :
    VSyncReactor :=
  { s with mPeriodTransitioningTo := some newPeriod, mMoreSamplesNeeded := true }

/-- `VSyncReactor::endPeriodTransition()`. -/
def VSyncReactor.endPeriodTransition (s : VSyncReactor) : VSyncReactor :=
  { s with mPeriodTransitioningTo := none, mLastHwVsync := none,
           mMoreSamplesNeeded := false }

/-- `VSyncReactor::setPeriod(period)`: clears `mLastHwVsync`, then ends the
transition if `period` equals the tracker's current period, else starts one. -/
def VSyncReactor.setPeriod (s : VSyncReactor) (period : Int) : VSyncReactor :=
  let s1 := { s with mLastHwVsync := none }
  if period = s1.getPeriod then s1.endPeriodTransition
  else s1.startPeriodTransition period

/-- `VSyncReactor::periodChangeDetected(vsync_timestamp)`: needs both an anchor
and a target period; commits when the observed interval is strictly closer to
the target period than to the tracker's current period. -/
def VSyncReactor.periodChangeDetected (s : VSyncReactor) (vsync_timestamp : Int) :
    Bool :=
  match s.mLastHwVsync, s.mPeriodTransitioningTo with
  | some last, some target =>
      let distance := vsync_timestamp - last
      (distance - target).natAbs < (distance - s.getPeriod).natAbs
  | _, _ => false

/-- `VSyncReactor::addResyncSample(timestamp, periodFlushed)`: returns
`(returnValue, periodFlushed, newState)`.  The `match` on
`mPeriodTransitioningTo` mirrors the source's `if / else if / else`:
`periodChangeDetected` only holds when `mPeriodTransitioningTo` is present, so
splitting on presence first is equivalent to the source's branch order. -/
def VSyncReactor.addResyncSample (s : VSyncReactor) (timestamp : Int) :
    Bool × Bool × VSyncReactor :=
  let inner : Bool × VSyncReactor :=
    match s.mPeriodTransitioningTo with
    | some target =>
        if s.periodChangeDetected timestamp then
          (true,
            VSyncReactor.endPeriodTransition
              { s with
                  mTracker := s.mTracker.setPeriod target,
                  mCallbacks :=
                    s.mCallbacks.map fun e => (e.1, e.2.setPeriod target) })
        else
          (false, { s with mLastHwVsync := some timestamp,
                           mMoreSamplesNeeded := true })
    | none => (false, { s with mMoreSamplesNeeded := false })
  let s2 := { inner.2 with mTracker := inner.2.mTracker.addVsyncTimestamp timestamp }
  (s2.mMoreSamplesNeeded, inner.1, s2)

/-- `VSyncReactor::addEventListener(name, phase, callback, lastCallbackTime)`:
`id` is the listener identity (the `callback` pointer), `now` the clock reading
(`mClock->now()`) taken when a new repeater is constructed.  An unseen identity
beyond the cap of 3 gets `NO_MEMORY` with no state change; an unseen identity
under the cap gets a fresh repeater seeded with the tracker's current period;
in all successful cases the repeater is (re)started at `phase`. -/
def VSyncReactor.addEventListener (s : VSyncReactor) (id : Nat) (phase : Int)
    (now : Int) : status_t × VSyncReactor :=
  match lookupCallback s.mCallbacks id with
  | some r =>
      (status_t.NO_ERROR,
        { s with mCallbacks := updateCallback s.mCallbacks id (r.start phase) })
  | none =>
      if 3 ≤ s.mCallbacks.length then
        (status_t.NO_MEMORY, s)
      else
        let repeater : CallbackRepeater :=
          { mStopped := false, mPeriod := s.mTracker.currentPeriod,
            mOffset := phase, mLastCallTime := now }
        (status_t.NO_ERROR,
          { s with mCallbacks := s.mCallbacks ++ [(id, repeater.start phase)] })

/-- `VSyncReactor::removeEventListener(callback, _)`:
`LOG_ALWAYS_FATAL_IF` when the identity is not registered (`none`), and
`CallbackRepeater::stop()` is itself fatal on an already-stopped repeater;
on success the stopped repeater stays in the map. -/
def VSyncReactor.removeEventListener (s : VSyncReactor) (id : Nat) :
    Option (status_t × VSyncReactor) :=
  match lookupCallback s.mCallbacks id with
  | none => none
  | some r =>
      match r.stop with
      | none => none
      | some r2 =>
          some (status_t.NO_ERROR,
            { s with mCallbacks := updateCallback s.mCallbacks id r2 })

/-! Concrete states and fence environments used by scenarios, counterexamples
and witnesses. -/

/-- Environment in which every fence still reports PENDING. -/
def envPending : Nat → SignalTime := fun _ => SignalTime.pending

/-- Environment in which every fence reports INVALID. -/
def envInvalid : Nat → SignalTime := fun _ => SignalTime.invalid

/-- A freshly constructed reactor with `pendingFenceLimit = 2` and a tracker
whose current period is 16666666 ns (60 Hz). -/
def baseReactor : VSyncReactor :=
  { mPendingLimit := 2, mUnfiredFences := [], mIgnorePresentFences := false,
    mPeriodTransitioningTo := none, mLastHwVsync := none,
    mMoreSamplesNeeded := false, mCallbacks := [],
    mTracker := { period := 16666666, samples := [] } }

/-- The base reactor after `setIgnorePresentFences(true)`. -/
def ignoringReactor : VSyncReactor :=
  baseReactor.setIgnorePresentFences true

/-- A running repeater with period 16, offset 0, last call time 0. -/
def repeater0 : CallbackRepeater :=
  { mStopped := false, mPeriod := 16, mOffset := 0, mLastCallTime := 0 }

/-- The base reactor with three registered listener identities 0, 1, 2. -/
def threeListenerReactor : VSyncReactor :=
  { baseReactor with mCallbacks := [(0, repeater0), (1, repeater0), (2, repeater0)] }

/-- The three-listener reactor after `removeEventListener` on identity 0: the
repeater is stopped but its map entry remains. -/
def stoppedListenerReactor : VSyncReactor :=
  { threeListenerReactor with
      mCallbacks := [(0, { repeater0 with mStopped := true }),
                     (1, repeater0), (2, repeater0)] }

/-- The base reactor with `pendingFenceLimit = 0`. -/
def zeroLimitReactor : VSyncReactor :=
  { baseReactor with mPendingLimit := 0 }

/-- A reactor with a period transition to 10 in flight, anchored at
`lastHwVsync = 0`, with current tracker period 16. -/
def transitioningReactor : VSyncReactor :=
  { baseReactor with mPeriodTransitioningTo := some 10, mLastHwVsync := some 0,
                     mMoreSamplesNeeded := true,
                     mTracker := { period := 16, samples := [] } }

/-! Helper lemmas shared by the claim theorems. -/

/-- After `CallbackRepeater::setPeriod(p)` the stored period is `p` (also in the
early-return branch, where it already was `p`). -/
theorem CallbackRepeater.setPeriod_mPeriod (r : CallbackRepeater) (p : Int) :
    (r.setPeriod p).mPeriod = p := by
  unfold CallbackRepeater.setPeriod
  split
  · omega
  · rfl

/-- The drain loop never lengthens the backlog. -/
theorem drainFences_length_le (env : Nat → SignalTime) (l : List Nat)
    (tr : VSyncTracker) : (drainFences env l tr).1.length ≤ l.length := by
  induction l generalizing tr with
  | nil => simp [drainFences]
  | cons f rest ih =>
    simp only [drainFences]
    cases env f with
    | pending => simpa using ih tr
    | invalid => exact Nat.le_succ_of_le (ih tr)
    | signaled t => exact Nat.le_succ_of_le (ih (tr.addVsyncTimestamp t))

/-- When every queued fence still reports PENDING, the drain loop keeps the
backlog and the tracker unchanged. -/
theorem drainFences_all_pending (env : Nat → SignalTime) (l : List Nat)
    (tr : VSyncTracker) (h : ∀ f ∈ l, env f = SignalTime.pending) :
    drainFences env l tr = (l, tr) := by
  induction l generalizing tr with
  | nil => rfl
  | cons f rest ih =>
    have hf : env f = SignalTime.pending := h f (List.mem_cons_self f rest)
    simp only [drainFences, hf, ih tr fun g hg => h g (List.mem_cons_of_mem f hg)]

/-- Looking up a key that is present, after updating that key, finds the new
value. -/
theorem lookupCallback_updateCallback (cbs : List (Nat × CallbackRepeater))
    (id : Nat) (r r0 : CallbackRepeater)
    (h : lookupCallback cbs id = some r0) :
    lookupCallback (updateCallback cbs id r) id = some r := by
  induction cbs with
  | nil => simp [lookupCallback] at h
  | cons e rest ih =>
    by_cases he : e.1 = id
    · simp [lookupCallback, updateCallback, he]
    · simp only [lookupCallback, updateCallback, he, if_false] at h ⊢
      exact ih h

/-- Updating an entry preserves the listener map's size. -/
theorem updateCallback_length (cbs : List (Nat × CallbackRepeater)) (id : Nat)
    (r : CallbackRepeater) : (updateCallback cbs id r).length = cbs.length := by
  induction cbs with
  | nil => rfl
  | cons e rest ih =>
    simp only [updateCallback]
    split <;> simp [ih]

/-- Branch equation for `removeEventListener`: unregistered identity is
fatal. -/
theorem removeEventListener_missing_eq (s : VSyncReactor) (id : Nat)
    (hl : lookupCallback s.mCallbacks id = none) :
    s.removeEventListener id = none := by
  unfold VSyncReactor.removeEventListener
  rw [hl]

/-- Branch equation for `removeEventListener`: found but already stopped is
fatal. -/
theorem removeEventListener_stopped_eq (s : VSyncReactor) (id : Nat)
    (r : CallbackRepeater) (hl : lookupCallback s.mCallbacks id = some r)
    (hstop : r.mStopped = true) :
    s.removeEventListener id = none := by
  unfold VSyncReactor.removeEventListener
  rw [hl]
  simp [CallbackRepeater.stop, hstop]

/-- Branch equation for `removeEventListener`: found and running — the
repeater is stopped in place, its entry kept. -/
theorem removeEventListener_found_eq (s : VSyncReactor) (id : Nat)
    (r : CallbackRepeater) (hl : lookupCallback s.mCallbacks id = some r)
    (hstop : r.mStopped = false) :
    s.removeEventListener id =
      some (status_t.NO_ERROR,
        { s with mCallbacks := updateCallback s.mCallbacks id { r with mStopped := true } }) := by
  unfold VSyncReactor.removeEventListener
  rw [hl]
  simp [CallbackRepeater.stop, hstop]

/-- Branch equation for `addEventListener`: known identity — the existing
repeater is restarted at the new phase. -/
theorem addEventListener_found_eq (s : VSyncReactor) (id : Nat) (phase now : Int)
    (r : CallbackRepeater) (hl : lookupCallback s.mCallbacks id = some r) :
    s.addEventListener id phase now =
      (status_t.NO_ERROR,
        { s with mCallbacks := updateCallback s.mCallbacks id (r.start phase) }) := by
  unfold VSyncReactor.addEventListener
  rw [hl]

/-- Branch equation for `addResyncSample`: committing branch. -/
theorem addResyncSample_commit (s : VSyncReactor) (t target : Int)
    (hT : s.mPeriodTransitioningTo = some target)
    (hdet : s.periodChangeDetected t = true) :
    s.addResyncSample t =
      (false, true,
        { s with mPeriodTransitioningTo := none, mLastHwVsync := none,
                 mMoreSamplesNeeded := false,
                 mTracker := (s.mTracker.setPeriod target).addVsyncTimestamp t,
                 mCallbacks := s.mCallbacks.map fun e => (e.1, e.2.setPeriod target) }) := by
  simp [VSyncReactor.addResyncSample, hT, hdet, VSyncReactor.endPeriodTransition]

/-- Branch equation for `addResyncSample`: transition in flight, not yet
committed. -/
theorem addResyncSample_pending (s : VSyncReactor) (t target : Int)
    (hT : s.mPeriodTransitioningTo = some target)
    (hdet : s.periodChangeDetected t = false) :
    s.addResyncSample t =
      (true, false,
        { s with mLastHwVsync := some t, mMoreSamplesNeeded := true,
                 mTracker := s.mTracker.addVsyncTimestamp t }) := by
  simp [VSyncReactor.addResyncSample, hT, hdet]

/-- Branch equation for `addResyncSample`: no transition in flight. -/
theorem addResyncSample_no_transition (s : VSyncReactor) (t : Int)
    (hT : s.mPeriodTransitioningTo = none) :
    s.addResyncSample t =
      (false, false,
        { s with mMoreSamplesNeeded := false,
                 mTracker := s.mTracker.addVsyncTimestamp t }) := by
  simp [VSyncReactor.addResyncSample, hT]

/-- Branch equation for `addPresentFence`: null fence. -/
theorem addPresentFence_none_eq (s : VSyncReactor) (env : Nat → SignalTime) :
    s.addPresentFence env none = some (false, s) := rfl

/-- Branch equation for `addPresentFence`: INVALID fence, immediate return. -/
theorem addPresentFence_invalid_eq (s : VSyncReactor) (env : Nat → SignalTime)
    (f : Nat) (h : env f = SignalTime.invalid) :
    s.addPresentFence env (some f) = some (true, s) := by
  unfold VSyncReactor.addPresentFence
  simp [h]

/-- Branch equation for `addPresentFence`: refinement disabled. -/
theorem addPresentFence_ignoring_eq (s : VSyncReactor) (env : Nat → SignalTime)
    (f : Nat) (h : s.mIgnorePresentFences = true) :
    s.addPresentFence env (some f) = some (true, s) := by
  unfold VSyncReactor.addPresentFence
  cases h2 : env f <;> simp [h, h2]

/-- Branch equation for `addPresentFence`: PENDING fence appended below
capacity. -/
theorem addPresentFence_pending_eq (s : VSyncReactor) (env : Nat → SignalTime)
    (f : Nat) (hig : s.mIgnorePresentFences = false) (hp : env f = SignalTime.pending)
    (hne : s.mPendingLimit ≠ (drainFences env s.mUnfiredFences s.mTracker).1.length) :
    s.addPresentFence env (some f) =
      some (s.mMoreSamplesNeeded,
        { s with mUnfiredFences := (drainFences env s.mUnfiredFences s.mTracker).1 ++ [f],
                 mTracker := (drainFences env s.mUnfiredFences s.mTracker).2 }) := by
  unfold VSyncReactor.addPresentFence
  simp [hig, hp, hne]

/-- Branch equation for `addPresentFence`: PENDING fence at capacity with a
non-empty drained backlog — the oldest entry is evicted. -/
theorem addPresentFence_evict_eq (s : VSyncReactor) (env : Nat → SignalTime)
    (f g : Nat) (rest : List Nat)
    (hig : s.mIgnorePresentFences = false) (hp : env f = SignalTime.pending)
    (heq : s.mPendingLimit = (drainFences env s.mUnfiredFences s.mTracker).1.length)
    (hcons : (drainFences env s.mUnfiredFences s.mTracker).1 = g :: rest) :
    s.addPresentFence env (some f) =
      some (s.mMoreSamplesNeeded,
        { s with mUnfiredFences := rest ++ [f],
                 mTracker := (drainFences env s.mUnfiredFences s.mTracker).2 }) := by
  unfold VSyncReactor.addPresentFence
  simp [hig, hp, heq, hcons]

/-- Branch equation for `addPresentFence`: PENDING fence at capacity with an
empty drained backlog — `erase(begin())` on an empty sequence, modelled as
`none`. -/
theorem addPresentFence_evict_empty_eq (s : VSyncReactor) (env : Nat → SignalTime)
    (f : Nat)
    (hig : s.mIgnorePresentFences = false) (hp : env f = SignalTime.pending)
    (heq : s.mPendingLimit = (drainFences env s.mUnfiredFences s.mTracker).1.length)
    (hnil : (drainFences env s.mUnfiredFences s.mTracker).1 = []) :
    s.addPresentFence env (some f) = none := by
  unfold VSyncReactor.addPresentFence
  simp [hig, hp, heq, hnil]

/-- Branch equation for `addPresentFence`: settled fence, timestamp forwarded
directly. -/
theorem addPresentFence_signaled_eq (s : VSyncReactor) (env : Nat → SignalTime)
    (f : Nat) (t : Int)
    (hig : s.mIgnorePresentFences = false) (hs : env f = SignalTime.signaled t) :
    s.addPresentFence env (some f) =
      some (s.mMoreSamplesNeeded,
        { s with mUnfiredFences := (drainFences env s.mUnfiredFences s.mTracker).1,
                 mTracker :=
                   (drainFences env s.mUnfiredFences s.mTracker).2.addVsyncTimestamp t }) := by
  unfold VSyncReactor.addPresentFence
  simp [hig, hs]

/-! Claim theorems. -/

/-- Claim C3: with a transition to `target` in flight and anchor `A`, a resync
sample `t` commits iff `|(t−A) − target| < |(t−A) − currentPeriod|`; on commit
the new period is pushed to the tracker, propagated to every registered
repeater, all transition state is cleared, and `periodFlushed = true`;
otherwise the transition stays pending, the anchor advances to `t`, the call
returns `true` (wants more samples) and `periodFlushed = false`. -/
theorem claim_C3 (s : VSyncReactor) (A target t : Int)
    (hA : s.mLastHwVsync = some A) (hT : s.mPeriodTransitioningTo = some target) :
    (((t - A) - target).natAbs < ((t - A) - s.mTracker.period).natAbs →
      (s.addResyncSample t).2.1 = true ∧
      (s.addResyncSample t).2.2.mTracker.period = target ∧
      (∀ e ∈ (s.addResyncSample t).2.2.mCallbacks, e.2.mPeriod = target) ∧
      (s.addResyncSample t).2.2.mPeriodTransitioningTo = none ∧
      (s.addResyncSample t).2.2.mLastHwVsync = none ∧
      (s.addResyncSample t).2.2.mMoreSamplesNeeded = false) ∧
    (¬ ((t - A) - target).natAbs < ((t - A) - s.mTracker.period).natAbs →
      (s.addResyncSample t).2.1 = false ∧
      (s.addResyncSample t).2.2.mPeriodTransitioningTo = some target ∧
      (s.addResyncSample t).2.2.mLastHwVsync = some t ∧
      (s.addResyncSample t).1 = true ∧
      (s.addResyncSample t).2.2.mMoreSamplesNeeded = true) := by
  have hd : s.periodChangeDetected t
      = decide (((t - A) - target).natAbs < ((t - A) - s.mTracker.period).natAbs) := by
    simp [VSyncReactor.periodChangeDetected, hA, hT, VSyncReactor.getPeriod,
      VSyncTracker.currentPeriod]
  constructor
  · intro hc
    have hdet : s.periodChangeDetected t = true := by simp [hd, hc]
    have he := addResyncSample_commit s t target hT hdet
    refine ⟨by simp [he], by simp [he, VSyncTracker.setPeriod, VSyncTracker.addVsyncTimestamp],
      ?_, by simp [he], by simp [he], by simp [he]⟩
    intro e hee
    rw [he] at hee
    simp only [List.mem_map] at hee
    obtain ⟨a, _, rfl⟩ := hee
    exact CallbackRepeater.setPeriod_mPeriod a.2 target
  · intro hc
    have hdet : s.periodChangeDetected t = false := by simp [hd, hc]
    have he := addResyncSample_pending s t target hT hdet
    exact ⟨by simp [he], by simp [he, hT], by simp [he], by simp [he], by simp [he]⟩

/-- Claim C3, witness: a sample at distance 10 from the anchor commits a
transition from period 16 to period 10. -/
theorem claim_C3_witness :
    (transitioningReactor.addResyncSample 10).2.1 = true ∧
    (transitioningReactor.addResyncSample 10).2.2.mPeriodTransitioningTo = none :=
  ⟨((claim_C3 transitioningReactor 0 10 10 rfl rfl).1 (by decide)).1,
   ((claim_C3 transitioningReactor 0 10 10 rfl rfl).1 (by decide)).2.2.2.1⟩

/-- Claim C5: every `addResyncSample` call forwards the raw timestamp to the
tracker as a vsync sample exactly once (the tracker's sample list grows by
exactly `[t]`) in every branch; and with no transition in flight it returns
`false` (wants no more samples) and reports `periodFlushed = false`. -/
theorem claim_C5 (s : VSyncReactor) (t : Int) :
    (s.addResyncSample t).2.2.mTracker.samples = s.mTracker.samples ++ [t] ∧
    (s.mPeriodTransitioningTo = none →
      (s.addResyncSample t).1 = false ∧ (s.addResyncSample t).2.1 = false) := by
  constructor
  · rcases hT : s.mPeriodTransitioningTo with _ | target
    · simp [addResyncSample_no_transition s t hT, VSyncTracker.addVsyncTimestamp]
    · cases hdet : s.periodChangeDetected t with
      | false =>
        simp [addResyncSample_pending s t target hT hdet, VSyncTracker.addVsyncTimestamp]
      | true =>
        simp [addResyncSample_commit s t target hT hdet, VSyncTracker.addVsyncTimestamp,
          VSyncTracker.setPeriod]
  · intro hT
    simp [addResyncSample_no_transition s t hT]

/-- Claim C5, witness: a resync sample on the idle base reactor. -/
theorem claim_C5_witness :
    (baseReactor.addResyncSample 5).2.2.mTracker.samples =
      baseReactor.mTracker.samples ++ [5] ∧
    ((baseReactor.addResyncSample 5).1 = false ∧
      (baseReactor.addResyncSample 5).2.1 = false) :=
  ⟨(claim_C5 baseReactor 5).1, (claim_C5 baseReactor 5).2 rfl⟩

/-- Claim C1, counterexample: with `mIgnorePresentFences = true` and a non-null
PENDING fence, `addPresentFence` leaves the state untouched but returns `true`,
not the claimed `false`. -/
theorem claim_C1_counterexample :
    ignoringReactor.mIgnorePresentFences = true ∧
    ignoringReactor.addPresentFence envPending (some 1) = some (true, ignoringReactor) ∧
    ignoringReactor.addPresentFence envPending (some 1) ≠ some (false, ignoringReactor) := by
  decide

/-- Claim C1, amended: for every non-null fence, if fence refinement is
disabled (`mIgnorePresentFences = true`), `addPresentFence` returns `true` (the
"more samples may still be wanted" value) and performs no further action: the
backlog is not drained, nothing is forwarded to the tracker, and no state is
mutated. -/
theorem claim_C1 (env : Nat → SignalTime) (f : Nat) (s : VSyncReactor)
    (h : s.mIgnorePresentFences = true) :
    s.addPresentFence env (some f) = some (true, s) := by
  unfold VSyncReactor.addPresentFence
  cases h2 : env f <;> simp [h, h2]

/-- Claim C1, witness for the amended theorem at a concrete disabled state. -/
theorem claim_C1_witness :
    ignoringReactor.addPresentFence envInvalid (some 2) = some (true, ignoringReactor) :=
  claim_C1 envInvalid 2 ignoringReactor (by decide)

/-- Claim C2, counterexample: a non-null fence whose signal time queries as
PENDING does not cause an immediate return with the backlog untouched — with
refinement enabled it is appended to the backlog. -/
theorem claim_C2_counterexample :
    baseReactor.mIgnorePresentFences = false ∧
    envPending 7 = SignalTime.pending ∧
    baseReactor.mUnfiredFences = [] ∧
    (baseReactor.addPresentFence envPending (some 7)).map (fun p => p.2.mUnfiredFences) =
      some [7] := by
  decide

/-- Claim C2, amended: for every non-null fence whose signal time queries as
INVALID, `addPresentFence` returns immediately with the "more samples may still
be wanted" value (`true`) and does not mutate the backlog, regardless of
whether fence refinement is disabled. -/
theorem claim_C2 (env : Nat → SignalTime) (f : Nat) (s : VSyncReactor)
    (h : env f = SignalTime.invalid) :
    s.addPresentFence env (some f) = some (true, s) := by
  unfold VSyncReactor.addPresentFence
  simp [h]

/-- Claim C2, witness for the amended theorem at a concrete INVALID fence. -/
theorem claim_C2_witness :
    baseReactor.addPresentFence envInvalid (some 3) = some (true, baseReactor) :=
  claim_C2 envInvalid 3 baseReactor rfl

/-- Claim C6: with three listener identities registered, registering a fourth,
unseen identity returns `NO_MEMORY` and mutates no state: no repeater is
constructed, the listener map is unchanged, and the existing repeaters are
untouched. -/
theorem claim_C6 (s : VSyncReactor) (id : Nat) (phase now : Int)
    (hnew : lookupCallback s.mCallbacks id = none)
    (hfull : s.mCallbacks.length = 3) :
    s.addEventListener id phase now = (status_t.NO_MEMORY, s) := by
  unfold VSyncReactor.addEventListener
  rw [hnew]
  simp [hfull]

/-- Claim C6, witness: a fourth identity on a three-listener reactor. -/
theorem claim_C6_witness :
    threeListenerReactor.addEventListener 3 4 100 =
      (status_t.NO_MEMORY, threeListenerReactor) :=
  claim_C6 threeListenerReactor 3 4 100 (by decide) (by decide)

/-- Claim C7: `setPeriod(x)` clears `mLastHwVsync` unconditionally; and when
`x` equals the tracker's current period it ends any in-flight transition,
clearing `mPeriodTransitioningTo`, `mLastHwVsync` and `mMoreSamplesNeeded`
together, and alters nothing else (the listener map, tracker, backlog, limit
and ignore flag of the resulting state are those of `s`). -/
theorem claim_C7 (s : VSyncReactor) (x : Int) :
    (s.setPeriod x).mLastHwVsync = none ∧
    (x = s.mTracker.period →
      s.setPeriod x = { s with mPeriodTransitioningTo := none, mLastHwVsync := none,
                               mMoreSamplesNeeded := false }) := by
  constructor
  · simp only [VSyncReactor.setPeriod, VSyncReactor.endPeriodTransition,
      VSyncReactor.startPeriodTransition, VSyncReactor.getPeriod, VSyncTracker.currentPeriod]
    split <;> rfl
  · intro hx
    simp [VSyncReactor.setPeriod, VSyncReactor.endPeriodTransition,
      VSyncReactor.startPeriodTransition, VSyncReactor.getPeriod,
      VSyncTracker.currentPeriod, hx]

/-- Claim C7, witness: setting the base reactor's period to its current
period. -/
theorem claim_C7_witness :
    (baseReactor.setPeriod 16666666).mLastHwVsync = none ∧
    baseReactor.setPeriod 16666666 =
      { baseReactor with mPeriodTransitioningTo := none, mLastHwVsync := none,
                         mMoreSamplesNeeded := false } :=
  ⟨(claim_C7 baseReactor 16666666).1, (claim_C7 baseReactor 16666666).2 rfl⟩

/-- Claim C4: (1) a successful `addPresentFence` preserves the invariant that
the backlog never exceeds `pendingFenceLimit` (and never changes the limit),
for any fence and any fence environment; (2) when a PENDING fence arrives with
every backlog entry still PENDING and the backlog exactly at a positive
capacity, exactly the single oldest entry is evicted before the new fence is
appended; (3) concretely, with limit 2 and fences 1, 2, 3 arriving PENDING
with none settling, the backlog ends as `[2, 3]`. -/
theorem claim_C4 :
    (∀ (env : Nat → SignalTime) (fence : Option Nat) (s : VSyncReactor) (b : Bool)
        (s1 : VSyncReactor),
        s.mUnfiredFences.length ≤ s.mPendingLimit →
        s.addPresentFence env fence = some (b, s1) →
        s1.mUnfiredFences.length ≤ s1.mPendingLimit ∧ s1.mPendingLimit = s.mPendingLimit) ∧
    (∀ (env : Nat → SignalTime) (f : Nat) (s : VSyncReactor),
        s.mIgnorePresentFences = false → env f = SignalTime.pending →
        (∀ g ∈ s.mUnfiredFences, env g = SignalTime.pending) →
        s.mUnfiredFences.length = s.mPendingLimit → 1 ≤ s.mPendingLimit →
        s.addPresentFence env (some f) =
          some (s.mMoreSamplesNeeded,
            { s with mUnfiredFences := s.mUnfiredFences.tail ++ [f] })) ∧
    ((baseReactor.addPresentFence envPending (some 1)).bind (fun r =>
        (r.2.addPresentFence envPending (some 2)).bind fun r2 =>
          (r2.2.addPresentFence envPending (some 3)).map fun r3 => r3.2.mUnfiredFences)
      = some [2, 3]) := by
  refine ⟨?_, ?_, by decide⟩
  · intro env fence s b s1 hinv h
    rcases fence with _ | f
    · rw [addPresentFence_none_eq] at h
      simp only [Option.some.injEq, Prod.mk.injEq] at h
      obtain ⟨rfl, rfl⟩ := h
      exact ⟨hinv, rfl⟩
    · cases h2 : env f with
      | invalid =>
        rw [addPresentFence_invalid_eq s env f h2] at h
        simp only [Option.some.injEq, Prod.mk.injEq] at h
        obtain ⟨rfl, rfl⟩ := h
        exact ⟨hinv, rfl⟩
      | pending =>
        cases hig : s.mIgnorePresentFences with
        | true =>
          rw [addPresentFence_ignoring_eq s env f hig] at h
          simp only [Option.some.injEq, Prod.mk.injEq] at h
          obtain ⟨rfl, rfl⟩ := h
          exact ⟨hinv, rfl⟩
        | false =>
          by_cases hlim : s.mPendingLimit = (drainFences env s.mUnfiredFences s.mTracker).1.length
          · rcases hnil : (drainFences env s.mUnfiredFences s.mTracker).1 with _ | ⟨g, rest⟩
            · rw [addPresentFence_evict_empty_eq s env f hig h2 hlim hnil] at h
              simp at h
            · rw [addPresentFence_evict_eq s env f g rest hig h2 hlim hnil] at h
              simp only [Option.some.injEq, Prod.mk.injEq] at h
              obtain ⟨rfl, rfl⟩ := h
              refine ⟨?_, rfl⟩
              rw [hnil] at hlim
              simp at hlim ⊢
              omega
          · rw [addPresentFence_pending_eq s env f hig h2 hlim] at h
            simp only [Option.some.injEq, Prod.mk.injEq] at h
            obtain ⟨rfl, rfl⟩ := h
            refine ⟨?_, rfl⟩
            have hle := drainFences_length_le env s.mUnfiredFences s.mTracker
            simp at hle ⊢
            omega
      | signaled t =>
        cases hig : s.mIgnorePresentFences with
        | true =>
          rw [addPresentFence_ignoring_eq s env f hig] at h
          simp only [Option.some.injEq, Prod.mk.injEq] at h
          obtain ⟨rfl, rfl⟩ := h
          exact ⟨hinv, rfl⟩
        | false =>
          rw [addPresentFence_signaled_eq s env f t hig h2] at h
          simp only [Option.some.injEq, Prod.mk.injEq] at h
          obtain ⟨rfl, rfl⟩ := h
          refine ⟨?_, rfl⟩
          have hle := drainFences_length_le env s.mUnfiredFences s.mTracker
          simp
          omega
  · intro env f s hig hp hall hlen hpos
    have hdr := drainFences_all_pending env s.mUnfiredFences s.mTracker hall
    rcases hcons : s.mUnfiredFences with _ | ⟨g, rest⟩
    · exfalso
      rw [hcons] at hlen
      simp at hlen
      omega
    · have heq : s.mPendingLimit = (drainFences env s.mUnfiredFences s.mTracker).1.length := by
        rw [hdr]
        exact hlen.symm
      have hc2 : (drainFences env s.mUnfiredFences s.mTracker).1 = g :: rest := by
        rw [hdr]
        exact hcons
      rw [addPresentFence_evict_eq s env f g rest hig hp heq hc2, hdr, hcons]
      rfl

/-- Claim C4, witness: adding one pending fence to the empty base reactor keeps
the backlog within its limit. -/
theorem claim_C4_witness :
    ({ baseReactor with mUnfiredFences := [9] } : VSyncReactor).mUnfiredFences.length ≤
      ({ baseReactor with mUnfiredFences := [9] } : VSyncReactor).mPendingLimit :=
  (claim_C4.1 envPending (some 9) baseReactor false
    { baseReactor with mUnfiredFences := [9] } (by decide) (by decide)).1

/-- Claim C10: with `pendingFenceLimit ≥ 1` the eviction branch of
`addPresentFence` never removes from an empty backlog — the operation never
hits the empty-removal error (`none`) — and the precondition is necessary:
with `pendingFenceLimit = 0` a PENDING fence reaches the eviction branch with
an empty backlog. -/
theorem claim_C10 :
    (∀ (env : Nat → SignalTime) (fence : Option Nat) (s : VSyncReactor),
        1 ≤ s.mPendingLimit → (s.addPresentFence env fence).isSome = true) ∧
    zeroLimitReactor.addPresentFence envPending (some 1) = none := by
  refine ⟨?_, by decide⟩
  intro env fence s hlim
  rcases fence with _ | f
  · simp [addPresentFence_none_eq]
  · cases h2 : env f with
    | invalid => simp [addPresentFence_invalid_eq s env f h2]
    | pending =>
      cases hig : s.mIgnorePresentFences with
      | true => simp [addPresentFence_ignoring_eq s env f hig]
      | false =>
        by_cases hl : s.mPendingLimit = (drainFences env s.mUnfiredFences s.mTracker).1.length
        · rcases hnil : (drainFences env s.mUnfiredFences s.mTracker).1 with _ | ⟨g, rest⟩
          · exfalso
            rw [hnil] at hl
            simp at hl
            omega
          · simp [addPresentFence_evict_eq s env f g rest hig h2 hl hnil]
        · simp [addPresentFence_pending_eq s env f hig h2 hl]
    | signaled t =>
      cases hig : s.mIgnorePresentFences with
      | true => simp [addPresentFence_ignoring_eq s env f hig]
      | false => simp [addPresentFence_signaled_eq s env f t hig h2]

/-- Claim C10, witness: the base reactor (limit 2) accepts a pending fence
without hitting the error branch. -/
theorem claim_C10_witness :
    (baseReactor.addPresentFence envPending (some 1)).isSome = true :=
  claim_C10.1 envPending (some 1) baseReactor (by decide)

/-- Claim C8: removing the same listener identity twice in succession is a
fatal contract violation — the second call aborts (`none`) rather than return
a status — and so is removing an identity that was never registered. -/
theorem claim_C8 :
    (∀ (s : VSyncReactor) (id : Nat) (st : status_t) (s1 : VSyncReactor),
        s.removeEventListener id = some (st, s1) →
        s1.removeEventListener id = none) ∧
    (∀ (s : VSyncReactor) (id : Nat),
        lookupCallback s.mCallbacks id = none →
        s.removeEventListener id = none) := by
  constructor
  · intro s id st s1 h
    rcases hl : lookupCallback s.mCallbacks id with _ | r
    · rw [removeEventListener_missing_eq s id hl] at h
      simp at h
    · cases hstop : r.mStopped with
      | true =>
        rw [removeEventListener_stopped_eq s id r hl hstop] at h
        simp at h
      | false =>
        rw [removeEventListener_found_eq s id r hl hstop] at h
        simp only [Option.some.injEq, Prod.mk.injEq] at h
        obtain ⟨rfl, rfl⟩ := h
        have hl2 : lookupCallback
            (updateCallback s.mCallbacks id { r with mStopped := true }) id =
            some { r with mStopped := true } :=
          lookupCallback_updateCallback s.mCallbacks id { r with mStopped := true } r hl
        exact removeEventListener_stopped_eq _ id { r with mStopped := true } hl2 rfl
  · intro s id h
    exact removeEventListener_missing_eq s id h

/-- Claim C8, witness: removing identity 0 a second time after a successful
removal aborts. -/
theorem claim_C8_witness :
    stoppedListenerReactor.removeEventListener 0 = none :=
  claim_C8.1 threeListenerReactor 0 status_t.NO_ERROR stoppedListenerReactor (by decide)

/-- Claim C9: a successful `removeEventListener` stops the repeater but keeps
its entry in the listener map — the map's size is unchanged, the stopped
repeater still occupies its slot — and a subsequent `addEventListener` with the
same identity reuses the existing stopped repeater (its stored period and last
call time are preserved; only `mStopped` and the offset change) instead of
constructing a new one, again without changing the map's size. -/
theorem claim_C9 (s : VSyncReactor) (id : Nat) (r : CallbackRepeater)
    (st : status_t) (s1 : VSyncReactor)
    (hfind : lookupCallback s.mCallbacks id = some r)
    (hrem : s.removeEventListener id = some (st, s1)) :
    s1.mCallbacks.length = s.mCallbacks.length ∧
    lookupCallback s1.mCallbacks id = some { r with mStopped := true } ∧
    ∀ phase now : Int,
      (s1.addEventListener id phase now).1 = status_t.NO_ERROR ∧
      (s1.addEventListener id phase now).2.mCallbacks.length = s.mCallbacks.length ∧
      lookupCallback (s1.addEventListener id phase now).2.mCallbacks id =
        some { mStopped := false, mPeriod := r.mPeriod, mOffset := phase,
               mLastCallTime := r.mLastCallTime } := by
  cases hstop : r.mStopped with
  | true =>
    rw [removeEventListener_stopped_eq s id r hfind hstop] at hrem
    simp at hrem
  | false =>
    rw [removeEventListener_found_eq s id r hfind hstop] at hrem
    simp only [Option.some.injEq, Prod.mk.injEq] at hrem
    obtain ⟨rfl, rfl⟩ := hrem
    have hl2 : lookupCallback
        (updateCallback s.mCallbacks id { r with mStopped := true }) id =
        some { r with mStopped := true } :=
      lookupCallback_updateCallback s.mCallbacks id { r with mStopped := true } r hfind
    refine ⟨by simp [updateCallback_length], hl2, ?_⟩
    intro phase now
    rw [addEventListener_found_eq _ id phase now { r with mStopped := true } hl2]
    refine ⟨rfl, by simp [updateCallback_length], ?_⟩
    have hl3 := lookupCallback_updateCallback
      (updateCallback s.mCallbacks id { r with mStopped := true }) id
      (CallbackRepeater.start { r with mStopped := true } phase)
      { r with mStopped := true } hl2
    dsimp only
    rw [hl3]
    rfl

/-- Claim C9, witness: re-registering identity 0 on the stopped-listener
reactor reuses the stopped repeater's period and last call time. -/
theorem claim_C9_witness :
    lookupCallback
      ((stoppedListenerReactor.addEventListener 0 7 99).2).mCallbacks 0 =
      some { mStopped := false, mPeriod := repeater0.mPeriod, mOffset := 7,
             mLastCallTime := repeater0.mLastCallTime } :=
  ((claim_C9 threeListenerReactor 0 repeater0 status_t.NO_ERROR
      stoppedListenerReactor (by decide) (by decide)).2.2 7 99).2.2

end AndroidScheduler
